import Mathlib

/-
Verification of the torus sample code: the hn-reader data layer
(src/samples/hn-reader/main.js) and the string renderer
(src/renderers/string-renderer.js).

The JavaScript is shallowly embedded: JS values flowing through the data
layer become the inductive type JVal, the module-level CACHE map plus the
log of network requests issued become the state type Net, and the async
function hnFetch is split at its single await point into a synchronous
phase 1 (cache check, request issuance) and a synchronous phase 2 (the
continuation after the awaited response resolves).  Stateful class code
becomes explicit state passing.
-/

/-- JavaScript values as they flow through the hn-reader data layer:
numbers (integral), strings, booleans, null, undefined, and arrays of
integer ids (the shape of HN listing and kids fields). -/
inductive JVal where
  | num (n : Int)
  | str (s : String)
  | bool (b : Bool)
  | null
  | undefined
  | list (l : List Int)
  deriving DecidableEq, Repr

/-- JavaScript truthiness for JVal: 0, the empty string, false, null and
undefined are falsy; arrays are objects and hence truthy. -/
def truthy : JVal → Bool
  | .num n => n != 0
  | .str s => s != ""
  | .bool b => b
  | .null => false
  | .undefined => false
  | .list _ => true

/-- First-match lookup in an association list with string keys (JS Map.get /
object property read; keys are unique in both, so first match is the match). -/
def lookupAssoc {α : Type} : List (String × α) → String → Option α
  | [], _ => none
  | (k', v) :: rest, k => if k' = k then some v else lookupAssoc rest k

/-- Key update in an association list (JS Map.set / object property write):
overwrites in place if the key is present, appends otherwise. -/
def setAssoc {α : Type} : List (String × α) → String → α → List (String × α)
  | [], k, v => [(k, v)]
  | (k', v') :: rest, k, v =>
    if k' = k then (k', v) :: rest else (k', v') :: setAssoc rest k v

/-- Shallow merge of the second association list into the first
(Object.assign semantics: later keys overwrite earlier ones). -/
def mergeAttrs (old nw : List (String × JVal)) : List (String × JVal) :=
  nw.foldl (fun acc kv => setAssoc acc kv.1 kv.2) old

/-- Global network-visible state of main.js: the module-level CACHE map from
API routes to responses, plus the ordered log of network requests issued
(one entry per invocation of the browser fetch). -/
structure Net where
  cache : List (String × JVal)
  requests : List String
  deriving DecidableEq, Repr

/-- Result of the synchronous prefix of hnFetch: either a cache hit carrying
the cached value, or a miss that has issued a network request and is now
awaiting the response. -/
inductive FetchPhase where
  | hit (v : JVal)
  | miss
  deriving DecidableEq, Repr

/-- The synchronous prefix of hnFetch (main.js lines 24-34), up to the await:
if the CACHE lacks apiPath, or skipCache is set, issue a network request
(logged) and suspend; otherwise return the cached value with no request. -/
def hnFetchPhase1 (net : Net) (apiPath : String) (skipCache : Bool) : Net × FetchPhase :=
  match lookupAssoc net.cache apiPath with
  | some v =>
    if skipCache then ({ net with requests := net.requests ++ [apiPath] }, .miss)
    else (net, .hit v)
  | none => ({ net with requests := net.requests ++ [apiPath] }, .miss)

/-- The continuation of hnFetch after its awaited response resolves
successfully: CACHE.set(apiPath, result), then return the result.  On a
rejected response this continuation never runs: the rejection propagates to
the caller and the state is left untouched. -/
def hnFetchPhase2 (net : Net) (apiPath : String) (result : JVal) : Net × JVal :=
  ({ net with cache := setAssoc net.cache apiPath result }, result)

/-- One complete, uninterleaved run of hnFetch, parameterized by what the
network responds for this call (Except.error models a rejected fetch). -/
def hnFetchRun (net : Net) (apiPath : String) (skipCache : Bool)
    (response : Except String JVal) : Net × Except String JVal :=
  match hnFetchPhase1 net apiPath skipCache with
  | (net1, .hit v) => (net1, .ok v)
  | (net1, .miss) =>
    match response with
    | .ok v =>
      match hnFetchPhase2 net1 apiPath v with
      | (net2, r) => (net2, .ok r)
    | .error err => (net1, .error err)

/-- n callers invoke hnFetch on the same apiPath concurrently, all before any
response resolves: n executions of phase 1 with no intervening phase 2. -/
def hnFetchStarts (net : Net) (apiPath : String) : Nat → Net
  | 0 => net
  | n + 1 => hnFetchStarts (hnFetchPhase1 net apiPath false).1 apiPath n

/-- Modelled from the spec: the torus.js Record class is not under src/
(main.js only subclasses it).  Per spec section 4.2 a Record holds an
immutable id and an attribute map. -/
structure Rec where
  id : Int
  attrs : List (String × JVal)
  deriving DecidableEq, Repr

/-- Modelled from the spec: Record construction, construct(id, initialAttrs). -/
def recordConstruct (i : Int) (initialAttrs : List (String × JVal)) : Rec :=
  { id := i, attrs := initialAttrs }

/-- Modelled from the spec: Record.get(name) returns the current attribute
value or undefined. -/
def recordGet (r : Rec) (name : String) : JVal :=
  (lookupAssoc r.attrs name).getD .undefined

/-- Modelled from the spec: Record.update shallow-merges the given keys into
the attribute map. -/
def recordUpdate (r : Rec) (attrs : List (String × JVal)) : Rec :=
  { r with attrs := mergeAttrs r.attrs attrs }

/-- A sequence of Record.update calls applied in order. -/
def applyUpdates (r : Rec) (us : List (List (String × JVal))) : Rec :=
  us.foldl recordUpdate r

/-- Item's loaded getter (main.js lines 126-129): returns the value of the
type attribute, used for its truthiness as a proxy for having loaded. -/
def itemLoaded (r : Rec) : JVal :=
  recordGet r "type"

/-- JS Array.prototype.slice with non-negative start and end arguments
(the only shape used by StoryStore.fetch). -/
def jsSlice {α : Type} (l : List α) (start stop : Nat) : List α :=
  (l.take stop).drop start

/-- State of a StoryStore (main.js lines 136-185): the torus Store part is
the held record list (modelled from the spec, section 4.3: reset replaces
the collection wholesale), plus the slug, page limit and page number fields
set by the constructor. -/
structure StoryStore where
  slug : String
  limit : Nat
  pageNumber : Nat
  records : List Rec
  deriving DecidableEq, Repr

/-- StoryStore constructor (main.js lines 139-144). -/
def storyStoreNew (slug : String) (limit : Nat) : StoryStore :=
  { slug := slug, limit := limit, pageNumber := 0, records := [] }

/-- The continuation of StoryStore.fetch (main.js lines 148-163) once the
listing ids have resolved: slice the listing to the current page window,
build one Story record per id whose order attribute is
pageNumber * limit + 1 + idx, and reset the store with those records.
(Each record's own detail fetch is then fired; it does not change the
store's record list.) -/
def storyStoreApplyListing (s : StoryStore) (ids : List Int) : StoryStore :=
  { s with
    records :=
      (jsSlice ids (s.pageNumber * s.limit) ((s.pageNumber + 1) * s.limit)).mapIdx
        fun idx i =>
          recordConstruct i [("order", JVal.num (Int.ofNat (s.pageNumber * s.limit + 1 + idx)))] }

/-- StoryStore.gotoPage (main.js lines 177-183) together with the fetch it
triggers: a no-op when the page number is unchanged; otherwise set the page
number, reset the store to empty, and refetch.  ids is the listing that the
triggered fetch's hnFetch call resolves with. -/
def storyStoreGotoPage (s : StoryStore) (pageNumber : Nat) (ids : List Int) : StoryStore :=
  if s.pageNumber ≠ pageNumber then
    storyStoreApplyListing { s with pageNumber := pageNumber, records := [] } ids
  else
    s

/-- One complete run of StoryStore.fetch (main.js lines 148-163) against the
network state: the listing is obtained through hnFetch('/' + slug) with
skipCache not passed (hence false); response is what the network would
respond if a request is actually issued. -/
def storyStoreFetchRun (s : StoryStore) (net : Net) (response : Except String JVal) :
    StoryStore × Net × Except String Unit :=
  match hnFetchRun net ("/" ++ s.slug) false response with
  | (net1, .error err) => (s, net1, .error err)
  | (net1, .ok (.list ids)) => (storyStoreApplyListing s ids, net1, .ok ())
  | (net1, .ok _) => (s, net1, .error "TypeError: stories.slice is not a function")

/-- A JS number that is either an integer or NaN (the value
Math.max(comment_ids.length - undefined, 0) produces while CommentStore's
limit field is still uninitialized). -/
inductive JSNum where
  | nan
  | int (n : Int)
  deriving DecidableEq, Repr

/-- State of a CommentStore (main.js lines 191-217).  The limit and
hiddenCount fields are undefined (none) until the constructor assigns them,
and resetWith runs before that assignment on the construction path. -/
structure CommentStore where
  records : List Rec
  hiddenCount : Option JSNum
  limit : Option Nat
  deriving DecidableEq, Repr

/-- CommentStore.resetWith (main.js lines 212-215):
hiddenCount = Math.max(comment_ids.length - limit, 0) and the store is reset
with one Comment record per id in comment_ids.slice(0, limit).  While limit
is still undefined, length - undefined is NaN (so hiddenCount becomes NaN)
and slice(0, undefined) is the whole array. -/
def commentStoreResetWith (s : CommentStore) (commentIds : List Int) : CommentStore :=
  { s with
    hiddenCount :=
      some (match s.limit with
            | none => JSNum.nan
            | some l => JSNum.int (max ((commentIds.length : Int) - (l : Int)) 0)),
    records :=
      (match s.limit with
       | none => commentIds
       | some l => commentIds.take l).map fun i => recordConstruct i [] }

/-- CommentStore constructor (main.js lines 193-201): super() starts the
store empty with limit and hiddenCount undefined, then resetWith(comment_ids)
runs, and only afterwards hiddenCount is set to 0 and limit to its value. -/
def commentStoreNew (commentIds : List Int) (limit : Nat) : CommentStore :=
  let s0 : CommentStore := { records := [], hiddenCount := none, limit := none }
  let s1 := commentStoreResetWith s0 commentIds
  { s1 with hiddenCount := some (JSNum.int 0), limit := some limit }

/-- Attribute values as the string renderer distinguishes them: strings,
integral numbers, booleans, arrays of strings (class lists), and iterables
of key-value string pairs (style maps). -/
inductive AttrVal where
  | str (s : String)
  | num (n : Int)
  | bool (b : Bool)
  | strList (l : List String)
  | pairs (l : List (String × String))
  deriving DecidableEq, Repr

/-- JS string coercion of an attribute value as interpolated into the
attrName="value" template (arrays join their elements with commas). -/
def attrValToString : AttrVal → String
  | .str s => s
  | .num n => toString n
  | .bool b => cond b "true" "false"
  | .strList l => String.intercalate "," l
  | .pairs l => String.intercalate "," (l.map fun p => p.1 ++ "," ++ p.2)

/-- arrayNormalize (string-renderer.js line 12) applied to the class
attribute, followed by the element-wise string coercion that
classes.join(' ') performs: an array stays as is, anything else is wrapped
in a one-element array. -/
def classNormalize : AttrVal → List String
  | .strList l => l
  | .pairs l => l.map fun p => p.1 ++ "," ++ p.2
  | v => [attrValToString v]

/-- The strings pushed by the style branch of the attribute loop
(string-renderer.js lines 51-53): each entry of the style value is
destructured as a pair and emitted as styleKey + ' ' + styleValue.  Pair
iterables destructure as expected; a string iterates its characters and a
string array destructures each element into its first two characters, with
undefined filling absent positions; numbers and booleans are not iterable,
so for...of throws a TypeError. -/
def styleStrings : AttrVal → Except String (List String)
  | .pairs l => .ok (l.map fun p => p.1 ++ " " ++ p.2)
  | .str s => .ok (s.toList.map fun c => String.singleton c ++ " undefined")
  | .strList l =>
    .ok (l.map fun s =>
      (match s.toList with
       | [] => "undefined"
       | c :: _ => String.singleton c) ++ " " ++
      (match s.toList with
       | _ :: c :: _ => String.singleton c
       | _ => "undefined"))
  | .num _ => .error "TypeError: next.attrs.style is not iterable"
  | .bool _ => .error "TypeError: next.attrs.style is not iterable"

/-- HTML_IDL_ATTRIBUTES (string-renderer.js lines 2-10): the fixed allow-list
of IDL boolean attributes. -/
def HTML_IDL_ATTRIBUTES : List String :=
  ["type", "value", "selected", "indeterminate", "tabIndex", "checked", "disabled"]

/-- One iteration of the attribute loop (string-renderer.js lines 45-64) over
the accumulated (attrs, styles, classes) triple: class replaces the class
list, style appends to the style list, an allow-listed IDL attribute is
pushed bare when its value is strictly boolean true and dropped otherwise,
and any other attribute is pushed as name="value". -/
def attrStep (acc : List String × List String × List String) (entry : String × AttrVal) :
    Except String (List String × List String × List String) :=
  if entry.1 = "class" then
    .ok (acc.1, acc.2.1, classNormalize entry.2)
  else if entry.1 = "style" then
    match styleStrings entry.2 with
    | .error err => .error err
    | .ok ss => .ok (acc.1, acc.2.1 ++ ss, acc.2.2)
  else if entry.1 ∈ HTML_IDL_ATTRIBUTES then
    if entry.2 = AttrVal.bool true then
      .ok (acc.1 ++ [entry.1], acc.2.1, acc.2.2)
    else
      .ok acc
  else
    .ok (acc.1 ++ [entry.1 ++ "=\"" ++ attrValToString entry.2 ++ "\""], acc.2.1, acc.2.2)

/-- Whitespace characters matched by the JS regex character class used in
node.replace at string-renderer.js line 75. -/
def isJsWS (c : Char) : Bool :=
  c = ' ' || c = '\n' || c = '\t' || c = '\r' || c = '\x0b' || c = '\x0c'

/-- Core of the whitespace collapse: every maximal run of whitespace becomes
a single space; prevWS records whether the previous character was part of a
whitespace run. -/
def collapseWSAux (prevWS : Bool) : List Char → List Char
  | [] => []
  | c :: rest =>
    if isJsWS c then
      (if prevWS then [] else [' ']) ++ collapseWSAux true rest
    else
      c :: collapseWSAux false rest

/-- node.replace at string-renderer.js line 75: collapse every run of
whitespace to a single space. -/
def collapseWS (s : String) : String :=
  (collapseWSAux false s.toList).asString

/-- JDOM virtual nodes as the string renderer consumes them: null, text
(string or number), or an element whose attrs, events and children fields
may each be absent (none) until normalizeJDOM adds the empty default. -/
inductive JDOM where
  | null
  | text (s : String)
  | num (n : Int)
  | elem (tag : String) (attrs : Option (List (String × AttrVal)))
      (events : Option Unit) (children : Option (List JDOM))

/-- Assembly of an element's output string (string-renderer.js lines 69-72):
the exact template literal, whitespace included, followed by the collapse. -/
def mkElemString (tag : String) (acc : List String × List String × List String)
    (childStrs : List String) : String :=
  collapseWS ("<" ++ tag ++ " " ++ String.intercalate " " acc.1 ++
    "\n            style=\"" ++ String.intercalate ";" acc.2.1 ++
    "\" class=\"" ++ String.intercalate " " acc.2.2 ++ "\">\n                " ++
    String.join childStrs ++ "\n        </" ++ tag ++ ">")

mutual
/-- stringRenderJDOM (string-renderer.js lines 29-76) on its next argument.
The pair returned is (the string produced, the state of the input node after
the call): normalizeJDOM mutates the element it is given by adding the
attrs, events and children fields when absent, and the children loop
recursively does the same to every child.  An error models a thrown
TypeError (only possible from the style branch). -/
def stringRenderJDOM : JDOM → Except String (String × JDOM)
  | .null => .ok (collapseWS "<!-- -->", .null)
  | .text s => .ok (collapseWS s, .text s)
  | .num n => .ok (collapseWS (toString n), .num n)
  | .elem tag a _ev none =>
    match (a.getD []).foldlM attrStep ([], [], []) with
    | .error err => .error err
    | .ok acc =>
      .ok (mkElemString tag acc [], .elem tag (some (a.getD [])) (some ()) (some []))
  | .elem tag a _ev (some cs) =>
    match (a.getD []).foldlM attrStep ([], [], []) with
    | .error err => .error err
    | .ok acc =>
      match stringRenderList cs with
      | .error err => .error err
      | .ok rs =>
        .ok (mkElemString tag acc (rs.map Prod.fst),
             .elem tag (some (a.getD [])) (some ()) (some (rs.map Prod.snd)))

/-- The children loop of stringRenderJDOM (string-renderer.js lines 65-67):
render each child in order, stopping at the first thrown error. -/
def stringRenderList : List JDOM → Except String (List (String × JDOM))
  | [] => .ok []
  | c :: rest =>
    match stringRenderJDOM c with
    | .error err => .error err
    | .ok r =>
      match stringRenderList rest with
      | .error err => .error err
      | .ok rs => .ok (r :: rs)
end

mutual
/-- The cumulative effect of normalizeJDOM (string-renderer.js lines 14-19)
as stringRenderJDOM applies it down the tree: every element gains the empty
defaults for its absent attrs, events and children fields; nothing else
changes. -/
def deepNormalize : JDOM → JDOM
  | .null => .null
  | .text s => .text s
  | .num n => .num n
  | .elem tag a _ none => .elem tag (some (a.getD [])) (some ()) (some [])
  | .elem tag a _ (some cs) => .elem tag (some (a.getD [])) (some ()) (some (deepNormalizeList cs))

/-- deepNormalize mapped over a child list. -/
def deepNormalizeList : List JDOM → List JDOM
  | [] => []
  | c :: rest => deepNormalize c :: deepNormalizeList rest
end

mutual
/-- A node all of whose element descendants already carry their attrs,
events and children fields (the fixpoints of normalizeJDOM). -/
def isNormalized : JDOM → Bool
  | .null => true
  | .text _ => true
  | .num _ => true
  | .elem _ _ _ none => false
  | .elem _ a ev (some cs) => a.isSome && ev.isSome && isNormalizedList cs

/-- isNormalized over a child list. -/
def isNormalizedList : List JDOM → Bool
  | [] => true
  | c :: rest => isNormalized c && isNormalizedList rest
end

/-- Whether one attribute entry conforms to the VirtualNode grammar: a style
attribute must hold a map (pair iterable) and a class attribute a list. -/
def wfAttrEntry (p : String × AttrVal) : Bool :=
  (if p.1 = "style" then
    match p.2 with
    | .pairs _ => true
    | _ => false
  else true) &&
  (if p.1 = "class" then
    match p.2 with
    | .strList _ => true
    | _ => false
  else true)

mutual
/-- Well-formed input per the spec's VirtualNode grammar: Null, Text (string
or number), or an Element whose style attribute is a map, whose class
attribute is a list, and whose children are all well-formed; absent optional
fields are allowed (they default to empty collections). -/
def wellFormed : JDOM → Bool
  | .null => true
  | .text _ => true
  | .num _ => true
  | .elem _ a _ none => (a.getD []).all wfAttrEntry
  | .elem _ a _ (some cs) => (a.getD []).all wfAttrEntry && wellFormedList cs

/-- wellFormed over a child list. -/
def wellFormedList : List JDOM → Bool
  | [] => true
  | c :: rest => wellFormed c && wellFormedList rest
end

/-- Scenario for the listing-cache behavior: a first StoryStore.fetch on a
fresh cache, the network responding with the listing [1, 2, 3]. -/
def listingFetchFirst : StoryStore × Net × Except String Unit :=
  storyStoreFetchRun (storyStoreNew "topstories" 20) { cache := [], requests := [] }
    (Except.ok (JVal.list [1, 2, 3]))

/-- Scenario continued: a second StoryStore.fetch on the resulting store and
network state, the network now holding the listing [4, 5, 6]. -/
def listingFetchSecond : StoryStore × Net × Except String Unit :=
  storyStoreFetchRun listingFetchFirst.1 listingFetchFirst.2.1
    (Except.ok (JVal.list [4, 5, 6]))

theorem lookup_setAssoc_eq {α : Type} (l : List (String × α)) (k : String) (v : α) :
    lookupAssoc (setAssoc l k v) k = some v := by
  induction l with
  | nil => simp [setAssoc, lookupAssoc]
  | cons p rest ih =>
    by_cases h : p.1 = k
    · simp [setAssoc, h, lookupAssoc]
    · simp [setAssoc, h, lookupAssoc, ih]

theorem lookup_setAssoc_ne {α : Type} (l : List (String × α)) (k' k : String) (v : α)
    (h : k' ≠ k) : lookupAssoc (setAssoc l k' v) k = lookupAssoc l k := by
  induction l with
  | nil => simp [setAssoc, lookupAssoc, h]
  | cons p rest ih =>
    by_cases hp : p.1 = k'
    · simp [setAssoc, hp, lookupAssoc, h]
    · simp [setAssoc, hp, lookupAssoc, ih]

theorem lookup_eq_none_of_not_mem {α : Type} (l : List (String × α)) (k : String)
    (h : k ∉ l.map Prod.fst) : lookupAssoc l k = none := by
  induction l with
  | nil => rfl
  | cons p rest ih =>
    simp only [List.map_cons, List.mem_cons] at h
    push_neg at h
    simp only [lookupAssoc]
    rw [if_neg (Ne.symm h.1)]
    exact ih h.2

theorem lookup_mergeAttrs (nw : List (String × JVal)) (hnd : (nw.map Prod.fst).Nodup) :
    ∀ (old : List (String × JVal)) (k : String),
      lookupAssoc (mergeAttrs old nw) k = (lookupAssoc nw k).or (lookupAssoc old k) := by
  induction nw with
  | nil => intro old k; simp [mergeAttrs, lookupAssoc, Option.or]
  | cons p rest ih =>
    intro old k
    simp only [List.map_cons, List.nodup_cons] at hnd
    have step : mergeAttrs old (p :: rest) = mergeAttrs (setAssoc old p.1 p.2) rest := rfl
    rw [step, ih hnd.2]
    by_cases hk : p.1 = k
    · subst hk
      have : lookupAssoc rest p.1 = none := by
        apply lookup_eq_none_of_not_mem
        exact hnd.1
      simp [lookupAssoc, this, lookup_setAssoc_eq, Option.or]
    · simp [lookupAssoc, hk, lookup_setAssoc_ne old p.1 k p.2 hk]

theorem hnFetchStarts_spec (k : String) :
    ∀ (n : Nat) (net : Net), lookupAssoc net.cache k = none →
      (hnFetchStarts net k n).cache = net.cache ∧
      (hnFetchStarts net k n).requests = net.requests ++ List.replicate n k := by
  intro n
  induction n with
  | zero => intro net _; simp [hnFetchStarts]
  | succ m ih =>
    intro net h
    have h1 : hnFetchPhase1 net k false
        = ({ net with requests := net.requests ++ [k] }, FetchPhase.miss) := by
      simp [hnFetchPhase1, h]
    have := ih { net with requests := net.requests ++ [k] } h
    simp only [hnFetchStarts, h1] at *
    refine ⟨this.1, ?_⟩
    rw [this.2]
    simp [List.replicate_succ]

/-- Claim C1 (corrected): hnFetch is not single-flight.  With k uncached, n
callers that all enter hnFetch before any response resolves each see a cache
miss and each issue their own network request (n requests in the log, the
cache still without k); only when one call's response resolves is the value
stored, after which a further call is a cache hit that issues no request. -/
theorem hnFetch_concurrent_behavior (net : Net) (k : String) (n : Nat) (v : JVal)
    (h : lookupAssoc net.cache k = none) :
    (hnFetchStarts net k n).requests = net.requests ++ List.replicate n k ∧
    lookupAssoc (hnFetchStarts net k n).cache k = none ∧
    lookupAssoc (hnFetchPhase2 (hnFetchStarts net k n) k v).1.cache k = some v ∧
    hnFetchPhase1 (hnFetchPhase2 (hnFetchStarts net k n) k v).1 k false
      = ((hnFetchPhase2 (hnFetchStarts net k n) k v).1, FetchPhase.hit v) := by
  obtain ⟨hc, hr⟩ := hnFetchStarts_spec k n net h
  refine ⟨hr, by rw [hc]; exact h, ?_, ?_⟩
  · simp [hnFetchPhase2, lookup_setAssoc_eq]
  · simp [hnFetchPhase1, hnFetchPhase2, lookup_setAssoc_eq]

/-- Claim C1 witness: the corrected behavior at a concrete input (empty
cache, two concurrent callers on "/k"). -/
theorem hnFetch_concurrent_behavior_witness :
    (hnFetchStarts { cache := [], requests := [] } "/k" 2).requests
        = [] ++ List.replicate 2 "/k" ∧
    lookupAssoc (hnFetchStarts { cache := [], requests := [] } "/k" 2).cache "/k" = none ∧
    lookupAssoc (hnFetchPhase2 (hnFetchStarts { cache := [], requests := [] } "/k" 2) "/k"
        (JVal.num 7)).1.cache "/k" = some (JVal.num 7) ∧
    hnFetchPhase1 (hnFetchPhase2 (hnFetchStarts { cache := [], requests := [] } "/k" 2) "/k"
        (JVal.num 7)).1 "/k" false
      = ((hnFetchPhase2 (hnFetchStarts { cache := [], requests := [] } "/k" 2) "/k"
        (JVal.num 7)).1, FetchPhase.hit (JVal.num 7)) :=
  hnFetch_concurrent_behavior { cache := [], requests := [] } "/k" 2 (JVal.num 7) rfl

/-- Claim C1 counterexample: two callers invoke hnFetch on "/k" concurrently
before the first response resolves; the network is invoked twice, not
exactly once as the claim states. -/
theorem hnFetch_single_flight_cex :
    (hnFetchStarts { cache := [], requests := [] } "/k" 2).requests.count "/k" = 2 ∧
    (hnFetchStarts { cache := [], requests := [] } "/k" 2).requests.count "/k" ≠ 1 := by
  constructor <;> decide

/-- Claim C2: if the remote call made by hnFetch on an uncached key rejects,
the rejection propagates to the caller and nothing is stored under the key,
so a subsequent call invokes the network again (a second logged request) and,
when that call succeeds, returns its value and caches it. -/
theorem hnFetch_failure_then_retry (net : Net) (k : String) (err : String) (v : JVal)
    (h : lookupAssoc net.cache k = none) :
    (hnFetchRun net k false (Except.error err)).2 = Except.error err ∧
    lookupAssoc (hnFetchRun net k false (Except.error err)).1.cache k = none ∧
    (hnFetchRun (hnFetchRun net k false (Except.error err)).1 k false (Except.ok v)).2
      = Except.ok v ∧
    lookupAssoc
        (hnFetchRun (hnFetchRun net k false (Except.error err)).1 k false (Except.ok v)).1.cache k
      = some v ∧
    (hnFetchRun (hnFetchRun net k false (Except.error err)).1 k false (Except.ok v)).1.requests
      = net.requests ++ [k, k] := by
  have h1 : hnFetchRun net k false (Except.error err)
      = ({ net with requests := net.requests ++ [k] }, Except.error err) := by
    simp [hnFetchRun, hnFetchPhase1, h]
  rw [h1]
  refine ⟨rfl, h, ?_, ?_, ?_⟩ <;>
    simp [hnFetchRun, hnFetchPhase1, hnFetchPhase2, h, lookup_setAssoc_eq]

/-- Claim C2 witness: the failed-then-retry behavior at a concrete input
(empty cache, key "/item/1", value 42). -/
theorem hnFetch_failure_then_retry_witness :
    (hnFetchRun { cache := [], requests := [] } "/item/1" false
        (Except.error "network down")).2 = Except.error "network down" ∧
    lookupAssoc (hnFetchRun { cache := [], requests := [] } "/item/1" false
        (Except.error "network down")).1.cache "/item/1" = none ∧
    (hnFetchRun (hnFetchRun { cache := [], requests := [] } "/item/1" false
        (Except.error "network down")).1 "/item/1" false (Except.ok (JVal.num 42))).2
      = Except.ok (JVal.num 42) ∧
    lookupAssoc (hnFetchRun (hnFetchRun { cache := [], requests := [] } "/item/1" false
        (Except.error "network down")).1 "/item/1" false (Except.ok (JVal.num 42))).1.cache
        "/item/1" = some (JVal.num 42) ∧
    (hnFetchRun (hnFetchRun { cache := [], requests := [] } "/item/1" false
        (Except.error "network down")).1 "/item/1" false (Except.ok (JVal.num 42))).1.requests
      = [] ++ ["/item/1", "/item/1"] :=
  hnFetch_failure_then_retry { cache := [], requests := [] } "/item/1" "network down"
    (JVal.num 42) rfl

/-- Claim C3: with the listing endpoint resolving to the ids 0..99 and a page
limit of 25, gotoPage(2) on a store whose current page differs from 2 leaves
the store holding Records for exactly ids[50:75] in order, the record at
offset k carrying order 2 * 25 + k + 1, i.e. ranks 51..75. -/
theorem storyStore_gotoPage_window (s : StoryStore)
    (hlim : s.limit = 25) (hpg : s.pageNumber ≠ 2) :
    (storyStoreGotoPage s 2 ((List.range 100).map Int.ofNat)).records
      = (List.range 25).map fun k =>
          recordConstruct (Int.ofNat (50 + k)) [("order", JVal.num (Int.ofNat (51 + k)))] := by
  rw [storyStoreGotoPage, if_pos hpg, storyStoreApplyListing]
  simp only [hlim]
  decide

/-- Claim C3 witness: the window and ranks at a concrete store (fresh store
on page 0 with limit 25). -/
theorem storyStore_gotoPage_window_witness :
    (storyStoreGotoPage (storyStoreNew "topstories" 25) 2
        ((List.range 100).map Int.ofNat)).records
      = (List.range 25).map fun k =>
          recordConstruct (Int.ofNat (50 + k)) [("order", JVal.num (Int.ofNat (51 + k)))] :=
  storyStore_gotoPage_window (storyStoreNew "topstories" 25) rfl (by decide)

/-- Claim C4: resetWith(childIds) on a CommentStore whose limit field holds L
sets hiddenCount to max(0, length(childIds) - L) and resets the store with
Records for exactly the first L ids, in order, dropping the excess ids. -/
theorem commentStore_resetWith_spec (s : CommentStore) (l : Nat) (ids : List Int)
    (h : s.limit = some l) :
    (commentStoreResetWith s ids).hiddenCount
        = some (JSNum.int (max 0 ((ids.length : Int) - (l : Int)))) ∧
    (commentStoreResetWith s ids).records = (ids.take l).map fun i => recordConstruct i [] := by
  simp [commentStoreResetWith, h, max_comm]

/-- Claim C4 witness: 30 ids with limit 25 yield hiddenCount 5 and Records
for exactly the first 25 ids. -/
theorem commentStore_resetWith_spec_witness :
    (commentStoreResetWith
        { records := [], hiddenCount := some (JSNum.int 0), limit := some 25 }
        ((List.range 30).map Int.ofNat)).hiddenCount
      = some (JSNum.int (max 0 (((((List.range 30).map Int.ofNat).length) : Int) - (25 : Int)))) ∧
    (commentStoreResetWith
        { records := [], hiddenCount := some (JSNum.int 0), limit := some 25 }
        ((List.range 30).map Int.ofNat)).records
      = (((List.range 30).map Int.ofNat).take 25).map fun i => recordConstruct i [] :=
  commentStore_resetWith_spec
    { records := [], hiddenCount := some (JSNum.int 0), limit := some 25 }
    25 ((List.range 30).map Int.ofNat) rfl

/-- Claim C10: the CommentStore constructor calls resetWith before the limit
and hiddenCount fields are initialized, so with a non-empty comment_ids list
every id materializes as a Record (slice(0, undefined) keeps the whole
array, so the visible-limit truncation is not applied) and hiddenCount is 0
afterwards (the NaN written by resetWith is overwritten). -/
theorem commentStore_constructor_no_truncation (ids : List Int) (l : Nat) (_h : ids ≠ []) :
    (commentStoreNew ids l).records = ids.map (fun i => recordConstruct i []) ∧
    (commentStoreNew ids l).hiddenCount = some (JSNum.int 0) := by
  simp [commentStoreNew, commentStoreResetWith]

/-- Claim C10 witness: 30 ids with limit 25 on the construction path produce
30 Records and hiddenCount 0. -/
theorem commentStore_constructor_no_truncation_witness :
    (commentStoreNew ((List.range 30).map Int.ofNat) 25).records
        = ((List.range 30).map Int.ofNat).map (fun i => recordConstruct i []) ∧
    (commentStoreNew ((List.range 30).map Int.ofNat) 25).hiddenCount
        = some (JSNum.int 0) :=
  commentStore_constructor_no_truncation ((List.range 30).map Int.ofNat) 25 (by decide)

/-- Claim C8 counterexample: a Record constructed id-only into which detail
attributes are merged once by update (here the by field, a detail attribute
of every HN item) still has a falsy loaded flag, because loaded reads the
type attribute and the merge carried no type; so loaded is not equivalent to
having merged at least once. -/
theorem item_loaded_cex :
    ([[("by", JVal.str "ab")]] : List (List (String × JVal))) ≠ [] ∧
    truthy (itemLoaded (applyUpdates (recordConstruct 1 []) [[("by", JVal.str "ab")]]))
      = false := by
  constructor <;> decide

/-- Claim C8 (corrected): loaded is the truthiness of the type attribute, a
proxy for having merged detail attributes.  A Record constructed id-only has
a falsy loaded flag, and after one update it is loaded exactly when the
merged attributes carried a truthy type value (as every item detail response
does), regardless of how many merges happened. -/
theorem item_loaded_type_proxy (i : Int) (attrs : List (String × JVal))
    (hnd : (attrs.map Prod.fst).Nodup) :
    truthy (itemLoaded (recordConstruct i [])) = false ∧
    truthy (itemLoaded (recordUpdate (recordConstruct i []) attrs))
      = truthy ((lookupAssoc attrs "type").getD JVal.undefined) := by
  constructor
  · rfl
  · have hm := lookup_mergeAttrs attrs hnd [] "type"
    simp only [itemLoaded, recordGet, recordUpdate, recordConstruct] at *
    rw [hm]
    cases lookupAssoc attrs "type" <;> rfl

/-- Claim C8 witness: the corrected equivalence at concrete inputs (an
id-only record, then an update carrying type "story"). -/
theorem item_loaded_type_proxy_witness :
    truthy (itemLoaded (recordConstruct 1 [])) = false ∧
    truthy (itemLoaded (recordUpdate (recordConstruct 1 []) [("type", JVal.str "story")]))
      = truthy ((lookupAssoc [("type", JVal.str "story")] "type").getD JVal.undefined) :=
  item_loaded_type_proxy 1 [("type", JVal.str "story")] (by decide)

/-- Claim C9 counterexample: two successive StoryStore.fetch calls do not
each issue a listing request.  After a first fetch resolves the listing
[1, 2, 3], a second fetch is served from the CACHE: the request log still
holds one entry (not two), and the store is rebuilt from the cached listing
[1, 2, 3] even though the endpoint now serves [4, 5, 6]. -/
theorem storyStore_fetch_uncached_cex :
    listingFetchSecond.2.1.requests = ["/topstories"] ∧
    listingFetchSecond.2.1.requests.length ≠ 2 ∧
    listingFetchSecond.1.records.map Rec.id = [1, 2, 3] := by
  refine ⟨rfl, by decide, rfl⟩

/-- Claim C9 (corrected): StoryStore.fetch obtains its listing through
hnFetch with skipCache left unset, so the listing response is cached.  With
the slug path uncached, a fetch issues one listing request and stores the
response; a subsequent fetch finds the path cached, issues no new request,
ignores what the endpoint would now serve, and rebuilds the page from the
cached listing. -/
theorem storyStore_fetch_cached (s : StoryStore) (net : Net) (ids : List Int)
    (resp2 : Except String JVal)
    (h : lookupAssoc net.cache ("/" ++ s.slug) = none) :
    (storyStoreFetchRun s net (Except.ok (JVal.list ids))).2.1.requests
        = net.requests ++ ["/" ++ s.slug] ∧
    lookupAssoc (storyStoreFetchRun s net (Except.ok (JVal.list ids))).2.1.cache
        ("/" ++ s.slug) = some (JVal.list ids) ∧
    (storyStoreFetchRun s net (Except.ok (JVal.list ids))).1
        = storyStoreApplyListing s ids ∧
    (storyStoreFetchRun (storyStoreFetchRun s net (Except.ok (JVal.list ids))).1
        (storyStoreFetchRun s net (Except.ok (JVal.list ids))).2.1 resp2).2.1.requests
      = net.requests ++ ["/" ++ s.slug] ∧
    (storyStoreFetchRun (storyStoreFetchRun s net (Except.ok (JVal.list ids))).1
        (storyStoreFetchRun s net (Except.ok (JVal.list ids))).2.1 resp2).1
      = storyStoreApplyListing (storyStoreApplyListing s ids) ids := by
  have h1 : storyStoreFetchRun s net (Except.ok (JVal.list ids))
      = (storyStoreApplyListing s ids,
         { net with cache := setAssoc net.cache ("/" ++ s.slug) (JVal.list ids),
                    requests := net.requests ++ ["/" ++ s.slug] },
         Except.ok ()) := by
    simp [storyStoreFetchRun, hnFetchRun, hnFetchPhase1, hnFetchPhase2, h]
  have hslug : (storyStoreApplyListing s ids).slug = s.slug := rfl
  rw [h1]
  refine ⟨rfl, lookup_setAssoc_eq net.cache ("/" ++ s.slug) (JVal.list ids), rfl, ?_, ?_⟩ <;>
    simp [storyStoreFetchRun, hnFetchRun, hnFetchPhase1, hslug,
      lookup_setAssoc_eq net.cache ("/" ++ s.slug) (JVal.list ids)]

/-- Claim C9 witness: the corrected caching behavior at a concrete input
(fresh store and cache, listing [1, 2, 3], second response [4, 5, 6]). -/
theorem storyStore_fetch_cached_witness :
    (storyStoreFetchRun (storyStoreNew "topstories" 20) { cache := [], requests := [] }
        (Except.ok (JVal.list [1, 2, 3]))).2.1.requests = [] ++ ["/" ++ "topstories"] ∧
    lookupAssoc (storyStoreFetchRun (storyStoreNew "topstories" 20)
        { cache := [], requests := [] }
        (Except.ok (JVal.list [1, 2, 3]))).2.1.cache ("/" ++ "topstories")
      = some (JVal.list [1, 2, 3]) ∧
    (storyStoreFetchRun (storyStoreNew "topstories" 20) { cache := [], requests := [] }
        (Except.ok (JVal.list [1, 2, 3]))).1
      = storyStoreApplyListing (storyStoreNew "topstories" 20) [1, 2, 3] ∧
    (storyStoreFetchRun
        (storyStoreFetchRun (storyStoreNew "topstories" 20) { cache := [], requests := [] }
          (Except.ok (JVal.list [1, 2, 3]))).1
        (storyStoreFetchRun (storyStoreNew "topstories" 20) { cache := [], requests := [] }
          (Except.ok (JVal.list [1, 2, 3]))).2.1
        (Except.ok (JVal.list [4, 5, 6]))).2.1.requests = [] ++ ["/" ++ "topstories"] ∧
    (storyStoreFetchRun
        (storyStoreFetchRun (storyStoreNew "topstories" 20) { cache := [], requests := [] }
          (Except.ok (JVal.list [1, 2, 3]))).1
        (storyStoreFetchRun (storyStoreNew "topstories" 20) { cache := [], requests := [] }
          (Except.ok (JVal.list [1, 2, 3]))).2.1
        (Except.ok (JVal.list [4, 5, 6]))).1
      = storyStoreApplyListing
          (storyStoreApplyListing (storyStoreNew "topstories" 20) [1, 2, 3]) [1, 2, 3] :=
  storyStore_fetch_cached (storyStoreNew "topstories" 20) { cache := [], requests := [] }
    [1, 2, 3] (Except.ok (JVal.list [4, 5, 6])) rfl

set_option maxRecDepth 40000 in
/-- Claim C6: in the attribute loop, an attribute whose name is on the fixed
IDL-boolean allow-list is pushed bare (just the name, no value) exactly when
its value is strictly the boolean true and contributes nothing to the output
otherwise; and concretely, serializing an input element with checked: true
and value: "x" emits a bare checked and no value="x" attribute. -/
theorem idl_boolean_attr_rule :
    (∀ (acc : List String × List String × List String) (name : String) (v : AttrVal),
      name ∈ HTML_IDL_ATTRIBUTES →
      attrStep acc (name, v)
        = .ok (if v = AttrVal.bool true then acc.1 ++ [name] else acc.1, acc.2.1, acc.2.2)) ∧
    stringRenderJDOM
        (JDOM.elem "input"
          (some [("checked", AttrVal.bool true), ("value", AttrVal.str "x")]) none none)
      = .ok ("<input checked style=\"\" class=\"\"> </input>",
          JDOM.elem "input"
            (some [("checked", AttrVal.bool true), ("value", AttrVal.str "x")])
            (some ()) (some [])) := by
  constructor
  · intro acc name v h
    fin_cases h <;>
      · simp only [attrStep]
        rw [if_neg (by decide), if_neg (by decide), if_pos (by decide)]
        split <;> rfl
  · rfl

/-- Claim C6 witness: the rule applied at the concrete attribute entries of
the claim's example (checked: true pushed bare, value: "x" in the allow-list
but not strictly true, hence dropped). -/
theorem idl_boolean_attr_rule_witness :
    attrStep ([], [], []) ("checked", AttrVal.bool true) = .ok (["checked"], [], []) ∧
    attrStep (["checked"], [], []) ("value", AttrVal.str "x") = .ok (["checked"], [], []) := by
  constructor
  · have h := idl_boolean_attr_rule.1 ([], [], []) "checked" (AttrVal.bool true) (by decide)
    simpa using h
  · have h := idl_boolean_attr_rule.1 (["checked"], [], []) "value" (AttrVal.str "x") (by decide)
    simpa using h

set_option maxRecDepth 40000 in
/-- Claim C5 counterexample: stringRenderJDOM is not side-effect free on its
input.  Serializing an element that lacks the attrs, events and children
fields returns the input with those fields added (normalizeJDOM mutates the
node), which differs from the unmodified input. -/
theorem serializer_mutates_input_cex :
    stringRenderJDOM (JDOM.elem "div" none none none)
      = .ok ("<div style=\"\" class=\"\"> </div>",
          JDOM.elem "div" (some []) (some ()) (some [])) ∧
    JDOM.elem "div" (some []) (some ()) (some []) ≠ JDOM.elem "div" none none none := by
  constructor
  · rfl
  · intro h
    injection h with h1 h2 h3 h4
    exact Option.noConfusion h2

theorem attrStep_ok_of_wf (acc : List String × List String × List String)
    (p : String × AttrVal) (h : wfAttrEntry p = true) :
    ∃ acc', attrStep acc p = .ok acc' := by
  rcases p with ⟨name, v⟩
  by_cases hc : name = "class"
  · exact ⟨(acc.1, acc.2.1, classNormalize v), by simp [attrStep, hc]⟩
  · by_cases hs : name = "style"
    · cases v with
      | pairs l =>
        exact ⟨(acc.1, acc.2.1 ++ l.map (fun q => q.1 ++ " " ++ q.2), acc.2.2),
          by simp [attrStep, hc, hs, styleStrings]⟩
      | str s => exact absurd h (by simp [wfAttrEntry, hs, hc])
      | num n => exact absurd h (by simp [wfAttrEntry, hs, hc])
      | bool b => exact absurd h (by simp [wfAttrEntry, hs, hc])
      | strList l => exact absurd h (by simp [wfAttrEntry, hs, hc])
    · by_cases hi : name ∈ HTML_IDL_ATTRIBUTES
      · by_cases hb : v = AttrVal.bool true
        · exact ⟨(acc.1 ++ [name], acc.2.1, acc.2.2), by simp [attrStep, hc, hs, hi, hb]⟩
        · exact ⟨acc, by simp [attrStep, hc, hs, hi, hb]⟩
      · exact ⟨(acc.1 ++ [name ++ "=\"" ++ attrValToString v ++ "\""], acc.2.1, acc.2.2),
          by simp [attrStep, hc, hs, hi]⟩

theorem attrFold_ok (l : List (String × AttrVal)) (h : l.all wfAttrEntry = true) :
    ∀ acc, ∃ acc', (l.foldlM attrStep acc : Except String _) = .ok acc' := by
  induction l with
  | nil => intro acc; exact ⟨acc, rfl⟩
  | cons p rest ih =>
    intro acc
    rw [List.all_cons, Bool.and_eq_true] at h
    obtain ⟨acc1, h1⟩ := attrStep_ok_of_wf acc p h.1
    obtain ⟨acc2, h2⟩ := ih h.2 acc1
    refine ⟨acc2, ?_⟩
    rw [List.foldlM_cons, h1]
    simpa using h2

mutual
theorem deepNormalize_of_normalized : ∀ (n : JDOM), isNormalized n = true → deepNormalize n = n
  | .null, _ => rfl
  | .text _, _ => rfl
  | .num _, _ => rfl
  | .elem tag a ev none, h => by simp [isNormalized] at h
  | .elem tag a ev (some cs), h => by
    simp only [isNormalized, Bool.and_eq_true] at h
    obtain ⟨⟨ha, hev⟩, hcs⟩ := h
    cases a with
    | none => simp at ha
    | some al =>
      cases ev with
      | none => simp at hev
      | some u =>
        simp only [deepNormalize, Option.getD_some]
        rw [deepNormalizeList_of_normalized cs hcs]

theorem deepNormalizeList_of_normalized :
    ∀ (l : List JDOM), isNormalizedList l = true → deepNormalizeList l = l
  | [], _ => rfl
  | c :: rest, h => by
    simp only [isNormalizedList, Bool.and_eq_true] at h
    rw [deepNormalizeList, deepNormalize_of_normalized c h.1,
      deepNormalizeList_of_normalized rest h.2]
end

mutual
theorem stringRenderJDOM_post : ∀ (n : JDOM) (r : String × JDOM),
    stringRenderJDOM n = .ok r → r.2 = deepNormalize n
  | .null, r, h => by
    simp only [stringRenderJDOM] at h
    cases h
    rfl
  | .text s, r, h => by
    simp only [stringRenderJDOM] at h
    cases h
    rfl
  | .num n, r, h => by
    simp only [stringRenderJDOM] at h
    cases h
    rfl
  | .elem tag a ev none, r, h => by
    simp only [stringRenderJDOM] at h
    split at h
    · exact absurd h (by simp)
    · cases h
      rfl
  | .elem tag a ev (some cs), r, h => by
    simp only [stringRenderJDOM] at h
    split at h
    · exact absurd h (by simp)
    · split at h
      · exact absurd h (by simp)
      · rename_i rs hrs
        cases h
        simp only [deepNormalize]
        rw [stringRenderList_post cs rs hrs]

theorem stringRenderList_post : ∀ (l : List JDOM) (rs : List (String × JDOM)),
    stringRenderList l = .ok rs → rs.map Prod.snd = deepNormalizeList l
  | [], rs, h => by
    simp only [stringRenderList] at h
    cases h
    rfl
  | c :: rest, rs, h => by
    simp only [stringRenderList] at h
    split at h
    · exact absurd h (by simp)
    · rename_i r hr
      split at h
      · exact absurd h (by simp)
      · rename_i rs2 hrs2
        cases h
        simp only [List.map_cons, deepNormalizeList]
        rw [stringRenderJDOM_post c r hr, stringRenderList_post rest rs2 hrs2]
end

mutual
theorem stringRenderJDOM_ok :
    ∀ (n : JDOM), wellFormed n = true → ∃ out, stringRenderJDOM n = Except.ok out
  | .null, _ => ⟨_, rfl⟩
  | .text s, _ => ⟨_, rfl⟩
  | .num n, _ => ⟨_, rfl⟩
  | .elem tag a ev none, h => by
    simp only [wellFormed] at h
    obtain ⟨acc, hacc⟩ := attrFold_ok (a.getD []) h ([], [], [])
    exact ⟨(mkElemString tag acc [], .elem tag (some (a.getD [])) (some ()) (some [])),
      by simp [stringRenderJDOM, hacc]⟩
  | .elem tag a ev (some cs), h => by
    simp only [wellFormed, Bool.and_eq_true] at h
    obtain ⟨acc, hacc⟩ := attrFold_ok (a.getD []) h.1 ([], [], [])
    obtain ⟨rs, hrs⟩ := stringRenderList_ok cs h.2
    exact ⟨(mkElemString tag acc (rs.map Prod.fst),
        .elem tag (some (a.getD [])) (some ()) (some (rs.map Prod.snd))),
      by simp [stringRenderJDOM, hacc, hrs]⟩

theorem stringRenderList_ok :
    ∀ (l : List JDOM), wellFormedList l = true → ∃ outs, stringRenderList l = Except.ok outs
  | [], _ => ⟨[], rfl⟩
  | c :: rest, h => by
    simp only [wellFormedList, Bool.and_eq_true] at h
    obtain ⟨r, hr⟩ := stringRenderJDOM_ok c h.1
    obtain ⟨rs, hrs⟩ := stringRenderList_ok rest h.2
    exact ⟨r :: rs, by simp [stringRenderList, hr, hrs]⟩
end

/-- Claim C5 (corrected): stringRenderJDOM's only effect on its input is
normalizeJDOM's normalization, applied to the node and every element
descendant it renders: absent attrs, events and children fields gain their
empty defaults, and nothing else changes; in particular an input all of
whose element nodes already carry those fields is returned completely
unmodified. -/
theorem serializer_mutation_is_normalization (n : JDOM) (s : String) (n' : JDOM)
    (h : stringRenderJDOM n = .ok (s, n')) :
    n' = deepNormalize n ∧ (isNormalized n = true → n' = n) :=
  ⟨stringRenderJDOM_post n (s, n') h,
   fun hn => (stringRenderJDOM_post n (s, n') h).trans (deepNormalize_of_normalized n hn)⟩

set_option maxRecDepth 40000 in
/-- Claim C5 witness: the corrected statement at a concrete input (an
element missing all three optional fields comes back deep-normalized). -/
theorem serializer_mutation_is_normalization_witness :
    JDOM.elem "div" (some []) (some ()) (some [])
        = deepNormalize (JDOM.elem "div" none none none) ∧
    (isNormalized (JDOM.elem "div" none none none) = true →
      JDOM.elem "div" (some []) (some ()) (some []) = JDOM.elem "div" none none none) :=
  serializer_mutation_is_normalization (JDOM.elem "div" none none none)
    "<div style=\"\" class=\"\"> </div>" (JDOM.elem "div" (some []) (some ()) (some [])) rfl

/-- Claim C7: the serializer never fails on well-formed input: for every node
conforming to the VirtualNode grammar (null, text, number, or an element
whose style attribute is a pair map, whose class attribute is a list, and
whose children are well-formed, with absent optional fields allowed),
stringRenderJDOM returns a result rather than an error. -/
theorem serializer_never_fails (n : JDOM) (h : wellFormed n = true) :
    ∃ out, stringRenderJDOM n = Except.ok out :=
  stringRenderJDOM_ok n h

/-- Claim C7 witness: totality at a concrete well-formed input exercising
attributes, a style map, a class list, and all three child shapes. -/
theorem serializer_never_fails_witness :
    wellFormed (JDOM.elem "div"
        (some [("class", AttrVal.strList ["x", "y"]),
               ("style", AttrVal.pairs [("color", "red")]),
               ("id", AttrVal.str "z"), ("checked", AttrVal.bool true)])
        none (some [JDOM.null, JDOM.text "hi", JDOM.num 5,
                    JDOM.elem "span" none none none])) = true ∧
    ∃ out, stringRenderJDOM (JDOM.elem "div"
        (some [("class", AttrVal.strList ["x", "y"]),
               ("style", AttrVal.pairs [("color", "red")]),
               ("id", AttrVal.str "z"), ("checked", AttrVal.bool true)])
        none (some [JDOM.null, JDOM.text "hi", JDOM.num 5,
                    JDOM.elem "span" none none none])) = Except.ok out :=
  ⟨rfl, serializer_never_fails _ rfl⟩
